import Mathlib

/-!
Verification of the LiveTelemetryTrainer core: the reference-telemetry
generator (`telemetryData.js`) and the scoring engine (`scoring.js`).

JavaScript numbers are idealized as rationals (`ℚ`).  The transcendental
`Math.sin` is not ℚ-computable, so every definition that uses it takes an
uninterpreted parameter `jsSin : ℚ → ℚ` standing for `Math.sin`; theorems
either hold for every `jsSin` or assume only the bound `|jsSin x| ≤ 1`.
-/

namespace LiveTelemetryTrainer

/-- A `{throttle, brake}` pedal record as passed around by the app. -/
structure PedalInput where
  throttle : ℚ
  brake : ℚ
deriving Repr, DecidableEq

/-- One entry of `TelemetryData.referenceData`: `{time, throttle, brake}`. -/
structure TelemetrySample where
  time : ℚ
  throttle : ℚ
  brake : ℚ
deriving Repr, DecidableEq

/-- The `Math.max(0, Math.min(100, x))` clamp used by `generateReferenceData`. -/
def clamp100 (x : ℚ) : ℚ := max 0 (min 100 x)

/-- `TelemetryData.smoothRamp(time, startTime, endTime, startValue, endValue)`:
early-out at the endpoints, otherwise a quadratic ease-in-out interpolation. -/
def smoothRamp (time startTime endTime startValue endValue : ℚ) : ℚ :=
  if time ≤ startTime then startValue
  else if time ≥ endTime then endValue
  else
    let progress := (time - startTime) / (endTime - startTime)
    let eased := if progress < 0.5 then 2 * progress * progress
      else 1 - (-2 * progress + 2) ^ 2 / 2
    startValue + (endValue - startValue) * eased

/-- `TelemetryData.calculateThrottle(time, duration)`: hard-coded branch
chain of ramps, then the perturbation `Math.sin(time*5)*2`.  The source also
binds a local `pattern = time/duration*Math.PI*4` that is never read; that
dead local is dropped here (the `duration` argument has no other use). -/
def calculateThrottle (jsSin : ℚ → ℚ) (time : ℚ) : ℚ :=
  let throttle :=
    if time < 3 then smoothRamp time 0 2 0 100
    else if time < 6 then 100
    else if time < 8 then smoothRamp time 6 7.5 100 20
    else if time < 10 then 10
    else if time < 12 then smoothRamp time 10 12 10 100
    else if time < 16 then 100
    else if time < 18 then smoothRamp time 16 17.5 100 0
    else if time < 20 then 0
    else if time < 23 then smoothRamp time 20 23 0 100
    else if time < 26 then 100
    else if time < 28 then smoothRamp time 26 27.5 100 30
    else smoothRamp time 28 30 30 80
  throttle + jsSin (time * 5) * 2

/-- `TelemetryData.calculateBrake(time, duration)`: three braking zones,
then the perturbation `Math.sin(time*8)*3` applied only when `brake > 10`. -/
def calculateBrake (jsSin : ℚ → ℚ) (time : ℚ) : ℚ :=
  let brake :=
    if 6.5 ≤ time ∧ time < 10 then
      if time < 7.5 then smoothRamp time 6.5 7.5 0 85
      else if time < 9 then smoothRamp time 7.5 9 85 20
      else smoothRamp time 9 10 20 0
    else if 16.5 ≤ time ∧ time < 20 then
      if time < 17.5 then smoothRamp time 16.5 17.5 0 100
      else if time < 19 then smoothRamp time 17.5 19 100 70
      else smoothRamp time 19 20 70 0
    else if 26.5 ≤ time ∧ time < 29 then
      if time < 27.5 then smoothRamp time 26.5 27.5 0 75
      else smoothRamp time 27.5 29 75 0
    else 0
  if brake > 10 then brake + jsSin (time * 8) * 3 else brake

/-- Loop body of `TelemetryData.generateReferenceData` at loop index `i`:
`time = i / sampleRate` and both channels clamped to `[0, 100]`. -/
def refSampleAt (jsSin : ℚ → ℚ) (i : ℕ) : TelemetrySample :=
  let time : ℚ := (i : ℚ) / 60
  { time := time
    throttle := clamp100 (calculateThrottle jsSin time)
    brake := clamp100 (calculateBrake jsSin time) }

/-- `TelemetryData.generateReferenceData()`: `duration * sampleRate = 1800`
samples pushed for `i = 0 .. totalSamples - 1`. -/
def generateReferenceData (jsSin : ℚ → ℚ) : List TelemetrySample :=
  (List.range (30 * 60)).map (refSampleAt jsSin)

/-- The `{throttle, brake}` record returned by `getReferenceAt`. -/
structure RefValue where
  throttle : ℚ
  brake : ℚ
deriving Repr, DecidableEq

/-- Out-of-bounds reads on a JS array yield `undefined`; `getReferenceAt`
is guarded so its reads are always in bounds, and we give `List.getD` this
default (never observed) to keep the embedding total. -/
def defaultSample : TelemetrySample := ⟨0, 0, 0⟩

/-- `TelemetryData.getReferenceAt(time)` over the instance's `referenceData`
list: early return for `time < 0`, last-sample return once
`index >= length - 1`, linear interpolation between the two bracketing
samples otherwise. -/
def getReferenceAt (data : List TelemetrySample) (time : ℚ) : RefValue :=
  if time < 0 then ⟨0, 0⟩
  else
    let index : ℤ := ⌊time * 60⌋
    if (data.length : ℤ) - 1 ≤ index then
      let last := data.getD (data.length - 1) defaultSample
      ⟨last.throttle, last.brake⟩
    else
      let sample1 := data.getD index.toNat defaultSample
      let sample2 := data.getD (index.toNat + 1) defaultSample
      let fraction := time * 60 - (index : ℚ)
      ⟨sample1.throttle + (sample2.throttle - sample1.throttle) * fraction,
       sample1.brake + (sample2.brake - sample1.brake) * fraction⟩

/-- `TelemetryData.getDuration()`: the `time` field of the last entry of
`referenceData`. -/
def getDuration (data : List TelemetrySample) : ℚ :=
  (data.getD (data.length - 1) defaultSample).time

/-- Elements of `(List.range n).map f` read through `getD` are just `f i`. -/
theorem getD_map_range {α : Type} (f : ℕ → α) (n i : ℕ) (d : α) (h : i < n) :
    ((List.range n).map f).getD i d = f i := by
  simp [List.getD, List.getElem?_map, List.getElem?_range, h]

theorem clamp100_nonneg (x : ℚ) : 0 ≤ clamp100 x := le_max_left 0 _

theorem clamp100_le (x : ℚ) : clamp100 x ≤ 100 :=
  max_le (by norm_num) (min_le_left 100 x)

/-! ## Pattern-driven generator, modelled from the spec

The repository ships the pattern library (`TELEMETRY_PATTERNS`) and
`validatePattern` in `telemetryData.js`, and `app.js` calls
`telemetryData.setPattern(...)`, but the segment-driven generator itself
(`generate(pattern)` of spec §4.1, the second generation of the telemetry
module) is not among the source files.  The definitions below are modelled
from the spec's words. -/

/-- A Segment of a Pattern: `timeRange : (start, end)`,
`throttle : (startValue, endValue)`, `brake : (startValue, endValue)`. -/
structure Segment where
  timeRange : ℚ × ℚ
  throttle : ℚ × ℚ
  brake : ℚ × ℚ
deriving Repr, DecidableEq

/-- A Pattern: declarative definition of a training exercise. -/
structure Pattern where
  name : String
  duration : ℚ
  description : String
  segments : List Segment
deriving Repr, DecidableEq

/-- Modelled from the spec: the ease-in-out curve of §4.1 —
`progress < 0.5 ⇒ 2·progress²`; else `1 − ((−2·progress+2)²)/2`. -/
def easeInOut (progress : ℚ) : ℚ :=
  if progress < 0.5 then 2 * progress * progress
  else 1 - (-2 * progress + 2) ^ 2 / 2

/-- Modelled from the spec: the throttle contribution of one segment at
time `t` — zero unless `timeRange` contains `t` (inclusive on both ends),
otherwise the segment's `(startValue, endValue)` linearly interpolated by
the eased progress `(t − start) / (end − start)`. -/
def segmentThrottleAt (seg : Segment) (t : ℚ) : ℚ :=
  if seg.timeRange.1 ≤ t ∧ t ≤ seg.timeRange.2 then
    let progress := (t - seg.timeRange.1) / (seg.timeRange.2 - seg.timeRange.1)
    seg.throttle.1 + (seg.throttle.2 - seg.throttle.1) * easeInOut progress
  else 0

/-- Modelled from the spec: the brake contribution of one segment at `t`,
analogous to `segmentThrottleAt`. -/
def segmentBrakeAt (seg : Segment) (t : ℚ) : ℚ :=
  if seg.timeRange.1 ≤ t ∧ t ≤ seg.timeRange.2 then
    let progress := (t - seg.timeRange.1) / (seg.timeRange.2 - seg.timeRange.1)
    seg.brake.1 + (seg.brake.2 - seg.brake.1) * easeInOut progress
  else 0

/-- Modelled from the spec: overlapping segments' interpolated throttle
contributions are summed into the running channel total. -/
def sumThrottle (segs : List Segment) (t : ℚ) : ℚ :=
  (segs.map (fun seg => segmentThrottleAt seg t)).sum

/-- Modelled from the spec: overlapping segments' interpolated brake
contributions are summed into the running channel total. -/
def sumBrake (segs : List Segment) (t : ℚ) : ℚ :=
  (segs.map (fun seg => segmentBrakeAt seg t)).sum

/-- Modelled from the spec: one generated sample of `generate(pattern)` at
tick `i` (`t = i/60`): sum the containing segments' eased contributions,
add the perturbation (`sin(t*5)*2` always on throttle, `sin(t*8)*3` on
brake only if `brake > 10` at that point), then clamp both channels. -/
def genSampleAt (jsSin : ℚ → ℚ) (P : Pattern) (i : ℕ) : TelemetrySample :=
  let t : ℚ := (i : ℚ) / 60
  let throttle := sumThrottle P.segments t + jsSin (t * 5) * 2
  let brake0 := sumBrake P.segments t
  let brake := if brake0 > 10 then brake0 + jsSin (t * 8) * 3 else brake0
  ⟨t, clamp100 throttle, clamp100 brake⟩

/-- Modelled from the spec: `generate(pattern)` produces
`floor(duration × 60)` samples, one per 1/60 s tick starting at `t = 0`. -/
def generateSignal (jsSin : ℚ → ℚ) (P : Pattern) : List TelemetrySample :=
  (List.range (⌊P.duration * 60⌋).toNat).map (genSampleAt jsSin P)

/-! ## Scoring engine (`scoring.js`) -/

/-- The `currentScore` record of `ScoringSystem`. -/
structure Score where
  meanDeviation : ℚ
  timingOffset : ℚ
  smoothness : ℚ
  accuracy : String
deriving Repr, DecidableEq

/-- One stored sample of `ScoringSystem.samples`. -/
structure ScoringSample where
  time : ℚ
  player : PedalInput
  reference : PedalInput
  deviation : ℚ
deriving Repr, DecidableEq

/-- The mutable state of a `ScoringSystem` instance. -/
structure ScoringSystem where
  samples : List ScoringSample
  deviations : List ℚ
  timingOffsets : List ℚ
  throttleGradients : List ℚ
  brakeGradients : List ℚ
  currentScore : Score
deriving Repr, DecidableEq

/-- The state established by `ScoringSystem.reset()` — also the state of a
freshly constructed engine, since the constructor just calls `reset()`. -/
def initialState : ScoringSystem :=
  { samples := []
    deviations := []
    timingOffsets := []
    throttleGradients := []
    brakeGradients := []
    currentScore := ⟨0, 0, 0, "N/A"⟩ }

/-- `ScoringSystem.reset()`: replaces every accumulated array and the
current score, returning the engine to the freshly constructed state. -/
def resetState (_s : ScoringSystem) : ScoringSystem := initialState

/-- `ScoringSystem.calculateMean(arr)`: 0 on the empty array, else the sum
divided by the length. -/
def calculateMean (arr : List ℚ) : ℚ :=
  if arr = [] then 0 else arr.sum / (arr.length : ℚ)

/-- `ScoringSystem.calculateTimingError(playerInput, referenceInput)`. -/
def calculateTimingError (playerInput referenceInput : PedalInput) : ℚ :=
  let playerBraking := playerInput.brake > 10
  let refBraking := referenceInput.brake > 10
  if playerBraking ∧ ¬refBraking then -50
  else if ¬playerBraking ∧ refBraking then 50
  else 0

/-- `ScoringSystem.calculateAccuracyGrade(meanDeviation, tolerance)`. -/
def calculateAccuracyGrade (meanDeviation tolerance : ℚ) : String :=
  if meanDeviation ≤ tolerance * 0.3 then "A+"
  else if meanDeviation ≤ tolerance * 0.5 then "A"
  else if meanDeviation ≤ tolerance * 0.7 then "B"
  else if meanDeviation ≤ tolerance then "C"
  else if meanDeviation ≤ tolerance * 1.3 then "D"
  else "F"

/-- `ScoringSystem.updateCurrentScores(tolerance)`: early return with the
state unchanged when no samples exist, otherwise recompute `currentScore`
from the last (at most) 120 samples.  `Math.max(0, …)` on the slice starts
is truncated ℕ subtraction here. -/
def updateCurrentScores (s : ScoringSystem) (tolerance : ℚ) : ScoringSystem :=
  if s.samples.length = 0 then s
  else
    let recentSamples := min 120 s.samples.length
    let startIndex := s.samples.length - recentSamples
    let recentDeviations := s.deviations.drop startIndex
    let meanDeviation := calculateMean recentDeviations
    let recentOffsets := s.timingOffsets.drop startIndex
    let timingOffset := calculateMean recentOffsets
    let recentThrottleGrad := s.throttleGradients.drop (startIndex - 1)
    let recentBrakeGrad := s.brakeGradients.drop (startIndex - 1)
    let avgGradient := (calculateMean recentThrottleGrad + calculateMean recentBrakeGrad) / 2
    let smoothness := max 0 (min 100 (100 - avgGradient / 5))
    let accuracy := calculateAccuracyGrade meanDeviation tolerance
    { s with currentScore := ⟨meanDeviation, timingOffset, smoothness, accuracy⟩ }

/-- `ScoringSystem.addSample(time, playerInput, referenceInput, tolerance)`:
returns the weighted deviation and the updated engine state. -/
def addSample (s : ScoringSystem) (time : ℚ) (playerInput referenceInput : PedalInput)
    (tolerance : ℚ) : ℚ × ScoringSystem :=
  let throttleDeviation := |playerInput.throttle - referenceInput.throttle|
  let brakeDeviation := |playerInput.brake - referenceInput.brake|
  let activeThreshold : ℚ := 10
  let isThrottleActive := referenceInput.throttle > activeThreshold
  let isBrakeActive := referenceInput.brake > activeThreshold
  let weightedDeviation :=
    if isBrakeActive ∧ isThrottleActive then (throttleDeviation + brakeDeviation) / 2
    else if isBrakeActive then brakeDeviation
    else if isThrottleActive then throttleDeviation
    else (|playerInput.throttle| + |playerInput.brake|) / 2
  let s1 := { s with deviations := s.deviations ++ [weightedDeviation] }
  let timingError := calculateTimingError playerInput referenceInput
  let s2 := { s1 with timingOffsets := s1.timingOffsets ++ [timingError] }
  let s3 :=
    match s2.samples.getLast? with
    | some prevSample =>
      let dt := time - prevSample.time
      if dt > 0 then
        let throttleGradient := |(playerInput.throttle - prevSample.player.throttle) / dt|
        let brakeGradient := |(playerInput.brake - prevSample.player.brake) / dt|
        { s2 with throttleGradients := s2.throttleGradients ++ [throttleGradient]
                  brakeGradients := s2.brakeGradients ++ [brakeGradient] }
      else s2
    | none => s2
  let s4 := { s3 with
    samples := s3.samples ++ [⟨time, playerInput, referenceInput, weightedDeviation⟩] }
  let s5 := updateCurrentScores s4 tolerance
  (weightedDeviation, s5)

/-- Insertion of one element into an ascending list; helper for `sortAsc`. -/
def insertAsc (x : ℚ) : List ℚ → List ℚ
  | [] => [x]
  | y :: ys => if x ≤ y then x :: y :: ys else y :: insertAsc x ys

/-- The ascending numeric sort `[...arr].sort((a, b) => a - b)` used by
`calculatePercentile`, modelled by insertion sort (on a totally ordered
type the ascending sorted permutation is unique, so the choice of sorting
algorithm is immaterial). -/
def sortAsc : List ℚ → List ℚ
  | [] => []
  | x :: xs => insertAsc x (sortAsc xs)

/-- `ScoringSystem.calculatePercentile(arr, percentile)`: nearest-rank on
the ascending sort, `index = floor(length * percentile)` clamped to the
last index. -/
def calculatePercentile (arr : List ℚ) (percentile : ℚ) : ℚ :=
  if arr = [] then 0
  else
    let sorted := sortAsc arr
    let index := (⌊(arr.length : ℚ) * percentile⌋).toNat
    sorted.getD (min index (sorted.length - 1)) 0

/-- `Math.round(x)`: nearest integer, ties toward positive infinity. -/
def jsRound (x : ℚ) : ℤ := ⌊x + 0.5⌋

/-- `x.toFixed(1)`: one-decimal string (ECMA-262 rounding: the closest
one-decimal value, ties picking the larger). -/
def toFixed1 (x : ℚ) : String :=
  let n : ℤ := ⌊x * 10 + 0.5⌋
  if n < 0 then "-" ++ toString ((-n) / 10) ++ "." ++ toString ((-n) % 10)
  else toString (n / 10) ++ "." ++ toString (n % 10)

/-- `x.toFixed(0)`: zero-decimal string. -/
def toFixed0 (x : ℚ) : String := toString ⌊x + 0.5⌋

/-- A dynamically typed JavaScript value as it appears in the summary
object: either a number or a string. -/
inductive JSValue
  | num : ℚ → JSValue
  | str : String → JSValue
deriving Repr, DecidableEq

/-- The object returned by `ScoringSystem.getSessionSummary`.  The
percentile fields are absent (`none`) on the zero-sample return. -/
structure SessionSummary where
  meanDeviation : JSValue
  timingOffset : JSValue
  smoothness : JSValue
  grade : String
  totalSamples : ℕ
  p50Deviation : Option JSValue
  p95Deviation : Option JSValue
deriving Repr, DecidableEq

/-- `ScoringSystem.getSessionSummary(tolerance)`. -/
def getSessionSummary (s : ScoringSystem) (tolerance : ℚ) : SessionSummary :=
  if s.samples.length = 0 then
    { meanDeviation := .num 0
      timingOffset := .num 0
      smoothness := .num 0
      grade := "N/A"
      totalSamples := 0
      p50Deviation := none
      p95Deviation := none }
  else
    let meanDeviation := calculateMean s.deviations
    let timingOffset := calculateMean s.timingOffsets
    let allGradients := s.throttleGradients ++ s.brakeGradients
    let avgGradient := calculateMean allGradients
    let smoothness := max 0 (min 100 (100 - avgGradient / 5))
    let grade := calculateAccuracyGrade meanDeviation tolerance
    let p95Deviation := calculatePercentile s.deviations 0.95
    let p50Deviation := calculatePercentile s.deviations 0.5
    { meanDeviation := .str (toFixed1 meanDeviation)
      timingOffset := .num ((jsRound timingOffset : ℤ) : ℚ)
      smoothness := .str (toFixed0 smoothness)
      grade := grade
      totalSamples := s.samples.length
      p50Deviation := some (.str (toFixed1 p50Deviation))
      p95Deviation := some (.str (toFixed1 p95Deviation)) }

/-- One frame's arguments to `addSample`, for folding call sequences. -/
structure AddSampleCall where
  time : ℚ
  playerInput : PedalInput
  referenceInput : PedalInput
  tolerance : ℚ
deriving Repr, DecidableEq

/-- Apply a sequence of `addSample` calls to an engine state. -/
def applyCalls (s : ScoringSystem) (calls : List AddSampleCall) : ScoringSystem :=
  calls.foldl (fun st c => (addSample st c.time c.playerInput c.referenceInput c.tolerance).2) s

/-! ## NaN-aware scoring layer

To settle totality over *all* JavaScript numeric inputs, including `NaN`,
the scoring pipeline is embedded a second time over `JSNum := Option ℚ`,
where `none` stands for a non-finite value (`NaN`; the `±Infinity` that JS
division by zero would produce is collapsed to `none` as well — that case
is unreachable, the only division sits behind a `dt > 0` guard).
Arithmetic propagates `none` and every comparison involving `none` is
`false`, exactly the IEEE comparison semantics JS gives `NaN`. -/

/-- A JavaScript number: a finite value or a non-finite one (`NaN`). -/
def JSNum : Type := Option ℚ
deriving Repr, DecidableEq

/-- Addition, `NaN`-propagating. -/
def jadd : JSNum → JSNum → JSNum
  | some x, some y => some (x + y)
  | _, _ => none

/-- Subtraction, `NaN`-propagating. -/
def jsub : JSNum → JSNum → JSNum
  | some x, some y => some (x - y)
  | _, _ => none

/-- Multiplication, `NaN`-propagating. -/
def jmul : JSNum → JSNum → JSNum
  | some x, some y => some (x * y)
  | _, _ => none

/-- Division; a zero divisor yields a non-finite result. -/
def jdiv : JSNum → JSNum → JSNum
  | some x, some y => if y = 0 then none else some (x / y)
  | _, _ => none

/-- `Math.abs`, `NaN`-propagating. -/
def jabs : JSNum → JSNum := Option.map (fun x => |x|)

/-- `>` — false whenever an operand is `NaN`. -/
def jgt : JSNum → JSNum → Bool
  | some x, some y => decide (x > y)
  | _, _ => false

/-- `<=` — false whenever an operand is `NaN`. -/
def jle : JSNum → JSNum → Bool
  | some x, some y => decide (x ≤ y)
  | _, _ => false

/-- `Math.max`, `NaN`-propagating. -/
def jmax : JSNum → JSNum → JSNum
  | some x, some y => some (max x y)
  | _, _ => none

/-- `Math.min`, `NaN`-propagating. -/
def jmin : JSNum → JSNum → JSNum
  | some x, some y => some (min x y)
  | _, _ => none

/-- A `{throttle, brake}` record of JS numbers. -/
structure JSPedal where
  throttle : JSNum
  brake : JSNum
deriving Repr, DecidableEq

/-- One stored sample, NaN-aware layer. -/
structure JSScoringSample where
  time : JSNum
  player : JSPedal
  reference : JSPedal
  deviation : JSNum
deriving Repr, DecidableEq

/-- The `currentScore` record, NaN-aware layer. -/
structure JSScore where
  meanDeviation : JSNum
  timingOffset : JSNum
  smoothness : JSNum
  accuracy : String
deriving Repr, DecidableEq

/-- `ScoringSystem` state, NaN-aware layer. -/
structure JSScoringSystem where
  samples : List JSScoringSample
  deviations : List JSNum
  timingOffsets : List JSNum
  throttleGradients : List JSNum
  brakeGradients : List JSNum
  currentScore : JSScore
deriving Repr, DecidableEq

/-- The freshly constructed / `reset()` state, NaN-aware layer. -/
def jsInitialState : JSScoringSystem :=
  { samples := []
    deviations := []
    timingOffsets := []
    throttleGradients := []
    brakeGradients := []
    currentScore := ⟨some 0, some 0, some 0, "N/A"⟩ }

/-- `ScoringSystem.reset()`, NaN-aware layer. -/
def jsReset (_s : JSScoringSystem) : JSScoringSystem := jsInitialState

/-- `ScoringSystem.calculateMean`, NaN-aware layer: `reduce` with `+` then
divide by the (nonzero) length. -/
def jsCalculateMean (arr : List JSNum) : JSNum :=
  if arr = [] then some 0
  else jdiv (arr.foldl jadd (some 0)) (some (arr.length : ℚ))

/-- `ScoringSystem.calculateTimingError`, NaN-aware layer. -/
def jsCalculateTimingError (playerInput referenceInput : JSPedal) : JSNum :=
  let playerBraking := jgt playerInput.brake (some 10)
  let refBraking := jgt referenceInput.brake (some 10)
  if playerBraking && !refBraking then some (-50)
  else if !playerBraking && refBraking then some 50
  else some 0

/-- `ScoringSystem.calculateAccuracyGrade`, NaN-aware layer: every `<=`
against `NaN` is false, so `NaN` falls through to `"F"`. -/
def jsCalculateAccuracyGrade (meanDeviation tolerance : JSNum) : String :=
  if jle meanDeviation (jmul tolerance (some 0.3)) then "A+"
  else if jle meanDeviation (jmul tolerance (some 0.5)) then "A"
  else if jle meanDeviation (jmul tolerance (some 0.7)) then "B"
  else if jle meanDeviation tolerance then "C"
  else if jle meanDeviation (jmul tolerance (some 1.3)) then "D"
  else "F"

/-- `ScoringSystem.updateCurrentScores`, NaN-aware layer. -/
def jsUpdateCurrentScores (s : JSScoringSystem) (tolerance : JSNum) : JSScoringSystem :=
  if s.samples.length = 0 then s
  else
    let recentSamples := min 120 s.samples.length
    let startIndex := s.samples.length - recentSamples
    let meanDeviation := jsCalculateMean (s.deviations.drop startIndex)
    let timingOffset := jsCalculateMean (s.timingOffsets.drop startIndex)
    let recentThrottleGrad := s.throttleGradients.drop (startIndex - 1)
    let recentBrakeGrad := s.brakeGradients.drop (startIndex - 1)
    let avgGradient :=
      jdiv (jadd (jsCalculateMean recentThrottleGrad) (jsCalculateMean recentBrakeGrad)) (some 2)
    let smoothness := jmax (some 0) (jmin (some 100) (jsub (some 100) (jdiv avgGradient (some 5))))
    let accuracy := jsCalculateAccuracyGrade meanDeviation tolerance
    { s with currentScore := ⟨meanDeviation, timingOffset, smoothness, accuracy⟩ }

/-- `ScoringSystem.addSample`, NaN-aware layer: the returned weighted
deviation and the updated state, for arbitrary (possibly `NaN`) inputs. -/
def jsAddSample (s : JSScoringSystem) (time : JSNum) (playerInput referenceInput : JSPedal)
    (tolerance : JSNum) : JSNum × JSScoringSystem :=
  let throttleDeviation := jabs (jsub playerInput.throttle referenceInput.throttle)
  let brakeDeviation := jabs (jsub playerInput.brake referenceInput.brake)
  let isThrottleActive := jgt referenceInput.throttle (some 10)
  let isBrakeActive := jgt referenceInput.brake (some 10)
  let weightedDeviation :=
    if isBrakeActive && isThrottleActive then jdiv (jadd throttleDeviation brakeDeviation) (some 2)
    else if isBrakeActive then brakeDeviation
    else if isThrottleActive then throttleDeviation
    else jdiv (jadd (jabs playerInput.throttle) (jabs playerInput.brake)) (some 2)
  let s1 := { s with deviations := s.deviations ++ [weightedDeviation] }
  let timingError := jsCalculateTimingError playerInput referenceInput
  let s2 := { s1 with timingOffsets := s1.timingOffsets ++ [timingError] }
  let s3 :=
    match s2.samples.getLast? with
    | some prevSample =>
      let dt := jsub time prevSample.time
      if jgt dt (some 0) then
        let throttleGradient := jabs (jdiv (jsub playerInput.throttle prevSample.player.throttle) dt)
        let brakeGradient := jabs (jdiv (jsub playerInput.brake prevSample.player.brake) dt)
        { s2 with throttleGradients := s2.throttleGradients ++ [throttleGradient]
                  brakeGradients := s2.brakeGradients ++ [brakeGradient] }
      else s2
    | none => s2
  let s4 := { s3 with
    samples := s3.samples ++ [⟨time, playerInput, referenceInput, weightedDeviation⟩] }
  let s5 := jsUpdateCurrentScores s4 tolerance
  (weightedDeviation, s5)

/-! ## Claim theorems -/

/-- C1: every `addSample` return value follows the four-case context
policy on the 10-activity threshold: both reference channels active gives
the average of the raw deviations, brake-only gives the raw brake
deviation alone, throttle-only the raw throttle deviation alone, neither
the average of the player's absolute throttle and brake; in particular
`referenceInput={0,50}, playerInput={30,50}` returns `0` and
`referenceInput={5,5}, playerInput={20,0}` returns `10`. -/
theorem addSample_context_policy (s : ScoringSystem) (time : ℚ)
    (p r : PedalInput) (tol : ℚ) :
    (10 < r.throttle → 10 < r.brake →
      (addSample s time p r tol).1 =
        (|p.throttle - r.throttle| + |p.brake - r.brake|) / 2) ∧
    (10 < r.brake → r.throttle ≤ 10 →
      (addSample s time p r tol).1 = |p.brake - r.brake|) ∧
    (10 < r.throttle → r.brake ≤ 10 →
      (addSample s time p r tol).1 = |p.throttle - r.throttle|) ∧
    (r.throttle ≤ 10 → r.brake ≤ 10 →
      (addSample s time p r tol).1 = (|p.throttle| + |p.brake|) / 2) ∧
    (addSample s time ⟨30, 50⟩ ⟨0, 50⟩ tol).1 = 0 ∧
    (addSample s time ⟨20, 0⟩ ⟨5, 5⟩ tol).1 = 10 := by
  refine ⟨?_, ?_, ?_, ?_, ?_, ?_⟩
  · intro ht hb
    simp only [addSample]
    rw [if_pos ⟨hb, ht⟩]
  · intro hb ht
    simp only [addSample]
    rw [if_neg (by push_neg; intro h; exact ht), if_pos hb]
  · intro ht hb
    simp only [addSample]
    rw [if_neg (by push_neg; intro h; exact absurd h (not_lt.mpr hb)),
      if_neg (not_lt.mpr hb), if_pos ht]
  · intro ht hb
    simp only [addSample]
    rw [if_neg (by push_neg; intro h; exact absurd h (not_lt.mpr hb)),
      if_neg (not_lt.mpr hb), if_neg (not_lt.mpr ht)]
  · norm_num [addSample]
  · norm_num [addSample]

/-- Witness for C1: both channels active at a concrete input, deviation is
the average of the two raw deviations. -/
theorem addSample_context_policy_witness :
    (addSample initialState 0 ⟨50, 50⟩ ⟨20, 20⟩ 10).1 = 30 := by
  have h := (addSample_context_policy initialState 0 ⟨50, 50⟩ ⟨20, 20⟩ 10).1
    (by norm_num) (by norm_num)
  rw [h]
  norm_num

/-- C3: for a nonnegative tolerance (the breakpoints are only ordered as
intervals when `0 ≤ tolerance`; the app always passes a positive one) the
letter grade is determined by fixed fractional breakpoints on
`meanDeviation` relative to `tolerance`: `A+` up to 0.3×, `A` up to 0.5×,
`B` up to 0.7×, `C` up to 1.0×, `D` up to 1.3×, `F` beyond. -/
theorem calculateAccuracyGrade_breakpoints (d t : ℚ) (ht : 0 ≤ t) :
    (calculateAccuracyGrade d t = "A+" ↔ d ≤ t * 0.3) ∧
    (calculateAccuracyGrade d t = "A" ↔ t * 0.3 < d ∧ d ≤ t * 0.5) ∧
    (calculateAccuracyGrade d t = "B" ↔ t * 0.5 < d ∧ d ≤ t * 0.7) ∧
    (calculateAccuracyGrade d t = "C" ↔ t * 0.7 < d ∧ d ≤ t) ∧
    (calculateAccuracyGrade d t = "D" ↔ t < d ∧ d ≤ t * 1.3) ∧
    (calculateAccuracyGrade d t = "F" ↔ t * 1.3 < d) := by
  have e3 : (0.3 : ℚ) = 3 / 10 := by norm_num
  have e5 : (0.5 : ℚ) = 5 / 10 := by norm_num
  have e7 : (0.7 : ℚ) = 7 / 10 := by norm_num
  have e13 : (1.3 : ℚ) = 13 / 10 := by norm_num
  unfold calculateAccuracyGrade
  rw [e3, e5, e7, e13]
  split_ifs with h1 h2 h3 h4 h5 <;>
    refine ⟨?_, ?_, ?_, ?_, ?_, ?_⟩ <;>
    first
    | exact iff_of_true rfl (by constructor <;> linarith)
    | exact iff_of_true rfl (by linarith)
    | exact iff_of_false (by decide) (by rintro ⟨hc1, hc2⟩; linarith)
    | exact iff_of_false (by decide) (by intro hc; linarith)

/-- Witness for C3: at `tolerance = 10`, `meanDeviation = 6` the grade is
`B`, consistent with its breakpoint interval `(5, 7]`. -/
theorem calculateAccuracyGrade_breakpoints_witness :
    calculateAccuracyGrade 6 10 = "B" := by
  exact ((calculateAccuracyGrade_breakpoints 6 10 (by norm_num)).2.2.1).mpr
    (by norm_num)

/-- C4 counterexample: with `tolerance = 10` the code grades
`meanDeviation = 3` as `A+` (the claim says `A`) and `meanDeviation = 14`
as `F` (the claim says `D`), so the claimed quadruple of grades is false. -/
theorem grade_examples_counterexample :
    ¬(calculateAccuracyGrade 3 10 = "A" ∧ calculateAccuracyGrade 10 10 = "C" ∧
      calculateAccuracyGrade 14 10 = "D" ∧ calculateAccuracyGrade 25 10 = "F") := by
  intro h
  have : calculateAccuracyGrade 3 10 = "A+" := by norm_num [calculateAccuracyGrade]
  rw [h.1] at this
  exact absurd this (by decide)

/-- C4 amended: with `tolerance = 10` the grades are `A+` for mean
deviation 3 (it sits exactly on the 0.3 breakpoint), `C` for 10, `F` for
14 (it exceeds the 1.3 breakpoint of 13), and `F` for 25. -/
theorem grade_examples_amended :
    calculateAccuracyGrade 3 10 = "A+" ∧ calculateAccuracyGrade 10 10 = "C" ∧
    calculateAccuracyGrade 14 10 = "F" ∧ calculateAccuracyGrade 25 10 = "F" := by
  refine ⟨?_, ?_, ?_, ?_⟩ <;> norm_num [calculateAccuracyGrade]

/-- C7: after any sequence of `addSample` calls, `reset()` followed by
`getSessionSummary(tolerance)` gives exactly the summary of a freshly
constructed engine. -/
theorem reset_summary_fresh (calls : List AddSampleCall) (tolerance : ℚ) :
    getSessionSummary (resetState (applyCalls initialState calls)) tolerance =
      getSessionSummary initialState tolerance := rfl

/-- `jsUpdateCurrentScores` only rewrites `currentScore`. -/
theorem jsUpdateCurrentScores_samples (s : JSScoringSystem) (tolerance : JSNum) :
    (jsUpdateCurrentScores s tolerance).samples = s.samples := by
  unfold jsUpdateCurrentScores
  split <;> rfl

/-- `jsAddSample` appends exactly one sample, carrying its arguments and
the returned weighted deviation. -/
theorem jsAddSample_samples (s : JSScoringSystem) (time : JSNum)
    (p r : JSPedal) (tol : JSNum) :
    (jsAddSample s time p r tol).2.samples =
      s.samples ++ [⟨time, p, r, (jsAddSample s time p r tol).1⟩] := by
  unfold jsAddSample
  rcases h : s.samples.getLast? with _ | prev <;>
    simp only [h] <;>
    split <;>
    simp [jsUpdateCurrentScores_samples]

/-- C8: `addSample` and `reset` are total.  Over the NaN-aware embedding
(`JSNum`, where `none` is `NaN`), for *every* input — `NaN`, out-of-range
values, non-increasing or repeated times — `jsAddSample` completes: it
appends exactly one sample and returns that sample's weighted deviation;
and `jsReset` applied to any state (including mid-session ones) yields the
fresh state. -/
theorem jsAddSample_and_reset_total (s : JSScoringSystem) (time : JSNum)
    (p r : JSPedal) (tol : JSNum) :
    (jsAddSample s time p r tol).2.samples.length = s.samples.length + 1 ∧
    (jsAddSample s time p r tol).2.samples.getLast? =
      some ⟨time, p, r, (jsAddSample s time p r tol).1⟩ ∧
    jsReset (jsAddSample s time p r tol).2 = jsInitialState := by
  refine ⟨?_, ?_, rfl⟩
  · rw [jsAddSample_samples]
    simp
  · rw [jsAddSample_samples]
    exact List.getLast?_concat _

/-- C9: the session summary's shape depends on whether samples exist —
empty gives the all-zero / `N/A` object with no percentile fields, while a
nonempty session produces decimal strings for mean deviation, smoothness
and both percentile fields. -/
theorem getSessionSummary_shape (s : ScoringSystem) (tol : ℚ) :
    (s.samples = [] →
      getSessionSummary s tol =
        ⟨.num 0, .num 0, .num 0, "N/A", 0, none, none⟩) ∧
    (s.samples ≠ [] →
      (∃ a, (getSessionSummary s tol).meanDeviation = .str a) ∧
      (∃ b, (getSessionSummary s tol).smoothness = .str b) ∧
      (∃ c, (getSessionSummary s tol).p50Deviation = some (.str c)) ∧
      (∃ d, (getSessionSummary s tol).p95Deviation = some (.str d))) := by
  constructor
  · intro h
    unfold getSessionSummary
    rw [if_pos (by simp [h])]
  · intro h
    unfold getSessionSummary
    rw [if_neg (by simpa using h)]
    exact ⟨⟨_, rfl⟩, ⟨_, rfl⟩, ⟨_, rfl⟩, ⟨_, rfl⟩⟩

/-- Witness for C9: the fresh engine's summary is the zero object, and a
one-sample engine's summary has string-valued mean deviation. -/
theorem getSessionSummary_shape_witness :
    getSessionSummary initialState 10 =
      ⟨.num 0, .num 0, .num 0, "N/A", 0, none, none⟩ ∧
    (∃ a, (getSessionSummary
      ⟨[⟨0, ⟨0, 0⟩, ⟨0, 0⟩, 0⟩], [0], [0], [], [], ⟨0, 0, 0, "N/A"⟩⟩ 10).meanDeviation =
        JSValue.str a) :=
  ⟨(getSessionSummary_shape initialState 10).1 rfl,
   ((getSessionSummary_shape _ 10).2 (by simp)).1⟩

/-- C5: whatever values `Math.sin` contributes (any `jsSin` at all, so in
particular when the pre-clamp pattern value plus perturbation leaves
`[0, 100]`), every generated reference sample has both channels in
`[0, 100]`, and each channel is exactly the clamp applied after the
perturbed channel computation. -/
theorem generateReferenceData_clamped (jsSin : ℚ → ℚ) (s : TelemetrySample)
    (hs : s ∈ generateReferenceData jsSin) :
    (0 ≤ s.throttle ∧ s.throttle ≤ 100) ∧ (0 ≤ s.brake ∧ s.brake ≤ 100) ∧
    s.throttle = clamp100 (calculateThrottle jsSin s.time) ∧
    s.brake = clamp100 (calculateBrake jsSin s.time) := by
  rcases List.mem_map.mp hs with ⟨i, _, rfl⟩
  exact ⟨⟨clamp100_nonneg _, clamp100_le _⟩, ⟨clamp100_nonneg _, clamp100_le _⟩, rfl, rfl⟩

/-- Witness for C5: the first generated sample (with the perturbation
interpreted as the zero function) is in the signal and in range. -/
theorem generateReferenceData_clamped_witness :
    refSampleAt (fun _ => 0) 0 ∈ generateReferenceData (fun _ => 0) ∧
    0 ≤ (refSampleAt (fun _ => (0 : ℚ)) 0).throttle ∧
    (refSampleAt (fun _ => (0 : ℚ)) 0).throttle ≤ 100 := by
  have hmem : refSampleAt (fun _ => (0 : ℚ)) 0 ∈ generateReferenceData (fun _ => 0) :=
    List.mem_map.mpr ⟨0, List.mem_range.mpr (by norm_num), rfl⟩
  exact ⟨hmem, (generateReferenceData_clamped _ _ hmem).1.1,
    (generateReferenceData_clamped _ _ hmem).1.2⟩

/-- C10: `getDuration` returns the time of the last generated sample,
`1799/60`, which is strictly below the nominal 30-second duration, and no
generated sample has time equal to 30. -/
theorem getDuration_last_time (jsSin : ℚ → ℚ) :
    getDuration (generateReferenceData jsSin) = 1799 / 60 ∧
    (1799 / 60 : ℚ) < 30 ∧
    ∀ s ∈ generateReferenceData jsSin, s.time ≠ 30 := by
  refine ⟨?_, by norm_num, ?_⟩
  · have hlen : (generateReferenceData jsSin).length = 1800 := by
      simp [generateReferenceData]
    unfold getDuration
    rw [hlen]
    unfold generateReferenceData
    rw [getD_map_range _ _ _ _ (by norm_num)]
    norm_num [refSampleAt]
  · intro s hs
    rcases List.mem_map.mp hs with ⟨i, hi, rfl⟩
    have hi' : i < 1800 := List.mem_range.mp hi
    show (i : ℚ) / 60 ≠ 30
    intro h
    have : (i : ℚ) = 1800 := by field_simp at h; exact_mod_cast h
    have : i = 1800 := by exact_mod_cast this
    omega

/-- Witness for C10: with the perturbation interpreted as zero, the
duration is `1799/60` and the first sample's time is not 30. -/
theorem getDuration_last_time_witness :
    getDuration (generateReferenceData (fun _ => 0)) = 1799 / 60 ∧
    (refSampleAt (fun _ => (0 : ℚ)) 0).time ≠ 30 :=
  ⟨(getDuration_last_time (fun _ => 0)).1,
   (getDuration_last_time (fun _ => 0)).2.2 _
     (List.mem_map.mpr ⟨0, List.mem_range.mpr (by norm_num), rfl⟩)⟩

/-- First segment of the spec's overlap test: `[0,2], throttle:[0,50]`. -/
def overlapSegA : Segment := ⟨(0, 2), (0, 50), (0, 0)⟩

/-- Second segment of the spec's overlap test: `[1,3], throttle:[0,50]`. -/
def overlapSegB : Segment := ⟨(1, 3), (0, 50), (0, 0)⟩

/-- A two-segment pattern whose segments overlap on `[1, 2]`. -/
def twoOverlapPattern : Pattern := ⟨"overlap", 3, "", [overlapSegA, overlapSegB]⟩

/-- C2: on the spec-modelled generator, the generated sample at `t = 1.5`
(tick 90) carries the *sum* of the two overlapping segments' eased
contributions (`43.75 + 6.25 = 50`, clamp a no-op there since the
perturbation is bounded), and differs from what either segment alone would
have produced — contributions are summed, not blended or prioritized. -/
theorem generated_sample_sums_overlaps (jsSin : ℚ → ℚ)
    (h : |jsSin (15 / 2)| ≤ 1) :
    (generateSignal jsSin twoOverlapPattern).getD 90 defaultSample =
      genSampleAt jsSin twoOverlapPattern 90 ∧
    (genSampleAt jsSin twoOverlapPattern 90).time = 3 / 2 ∧
    segmentThrottleAt overlapSegA (3 / 2) = 175 / 4 ∧
    segmentThrottleAt overlapSegB (3 / 2) = 25 / 4 ∧
    (genSampleAt jsSin twoOverlapPattern 90).throttle =
      segmentThrottleAt overlapSegA (3 / 2) + segmentThrottleAt overlapSegB (3 / 2)
        + jsSin (15 / 2) * 2 ∧
    (genSampleAt jsSin twoOverlapPattern 90).throttle ≠
      clamp100 (segmentThrottleAt overlapSegA (3 / 2) + jsSin (15 / 2) * 2) ∧
    (genSampleAt jsSin twoOverlapPattern 90).throttle ≠
      clamp100 (segmentThrottleAt overlapSegB (3 / 2) + jsSin (15 / 2) * 2) := by
  obtain ⟨hs1, hs2⟩ := abs_le.mp h
  have hA : segmentThrottleAt overlapSegA (3 / 2) = 175 / 4 := by
    norm_num [segmentThrottleAt, overlapSegA, easeInOut]
  have hB : segmentThrottleAt overlapSegB (3 / 2) = 25 / 4 := by
    norm_num [segmentThrottleAt, overlapSegB, easeInOut]
  have hsum : sumThrottle twoOverlapPattern.segments (3 / 2) = 50 := by
    simp only [sumThrottle, twoOverlapPattern, List.map, List.sum_cons, List.sum_nil, hA, hB]
    norm_num
  have hthr : (genSampleAt jsSin twoOverlapPattern 90).throttle
      = clamp100 (sumThrottle twoOverlapPattern.segments (3 / 2) + jsSin (15 / 2) * 2) := by
    simp only [genSampleAt]
    norm_num
  have hval : (genSampleAt jsSin twoOverlapPattern 90).throttle
      = 50 + jsSin (15 / 2) * 2 := by
    rw [hthr, hsum]
    unfold clamp100
    rw [min_eq_right (by linarith), max_eq_right (by linarith)]
  refine ⟨?_, by norm_num [genSampleAt], hA, hB, ?_, ?_, ?_⟩
  · have hn : (⌊twoOverlapPattern.duration * 60⌋).toNat = 180 := by
      norm_num [twoOverlapPattern]
      rfl
    rw [generateSignal, hn, getD_map_range _ _ _ _ (by norm_num)]
  · rw [hval, hA, hB]
    ring
  · rw [hval, hA]
    unfold clamp100
    rw [min_eq_right (by linarith), max_eq_right (by linarith)]
    intro hc
    linarith
  · rw [hval, hB]
    unfold clamp100
    rw [min_eq_right (by linarith), max_eq_right (by linarith)]
    intro hc
    linarith

/-- Witness for C2: with the perturbation interpreted as the zero
function, the generated sample at tick 90 has throttle exactly 50, the
clamped sum of the two segments' contributions. -/
theorem generated_sample_sums_overlaps_witness :
    |(0 : ℚ)| ≤ 1 ∧ (genSampleAt (fun _ => 0) twoOverlapPattern 90).throttle = 50 := by
  refine ⟨by norm_num, ?_⟩
  have h := (generated_sample_sums_overlaps (fun _ => 0) (by norm_num)).2.2.2.2.1
  rw [h]
  norm_num [segmentThrottleAt, overlapSegA, overlapSegB, easeInOut]

/-- Reading the generated signal through `getD` below index 1800 gives the
loop-body sample. -/
theorem generateReferenceData_getD (jsSin : ℚ → ℚ) (i : ℕ) (h : i < 1800) :
    (generateReferenceData jsSin).getD i defaultSample = refSampleAt jsSin i := by
  unfold generateReferenceData
  exact getD_map_range _ _ _ _ (by omega)

/-- C6: querying the reference signal before time 0 returns `{0, 0}`;
querying at or beyond the last sample's time (`1799/60`, e.g. at
`duration + 100`) returns exactly the last sample's values with no
extrapolation; and any in-range time linearly interpolates the two
bracketing 60 Hz samples with fraction `(time*60) − floor(time*60)`. -/
theorem getReferenceAt_boundary_interp (jsSin : ℚ → ℚ) (t : ℚ) :
    (t < 0 → getReferenceAt (generateReferenceData jsSin) t = ⟨0, 0⟩) ∧
    (1799 / 60 ≤ t →
      getReferenceAt (generateReferenceData jsSin) t =
        ⟨(refSampleAt jsSin 1799).throttle, (refSampleAt jsSin 1799).brake⟩) ∧
    (0 ≤ t → t * 60 < 1799 →
      getReferenceAt (generateReferenceData jsSin) t =
        ⟨(refSampleAt jsSin (⌊t * 60⌋).toNat).throttle
            + ((refSampleAt jsSin ((⌊t * 60⌋).toNat + 1)).throttle
                - (refSampleAt jsSin (⌊t * 60⌋).toNat).throttle)
              * (t * 60 - (⌊t * 60⌋ : ℤ)),
         (refSampleAt jsSin (⌊t * 60⌋).toNat).brake
            + ((refSampleAt jsSin ((⌊t * 60⌋).toNat + 1)).brake
                - (refSampleAt jsSin (⌊t * 60⌋).toNat).brake)
              * (t * 60 - (⌊t * 60⌋ : ℤ))⟩) := by
  have hlen : (generateReferenceData jsSin).length = 1800 := by
    simp [generateReferenceData]
  refine ⟨?_, ?_, ?_⟩
  · intro ht
    simp only [getReferenceAt]
    rw [if_pos ht]
  · intro ht
    have ht0 : ¬ t < 0 := not_lt.mpr (le_trans (by norm_num) ht)
    have hfl : (1799 : ℤ) ≤ ⌊t * 60⌋ := Int.le_floor.mpr (by push_cast; linarith)
    have hcond : ((generateReferenceData jsSin).length : ℤ) - 1 ≤ ⌊t * 60⌋ := by
      rw [hlen]; push_cast; omega
    simp only [getReferenceAt]
    rw [if_neg ht0, if_pos hcond, hlen]
    rw [show (1800 - 1 : ℕ) = 1799 from rfl, generateReferenceData_getD _ _ (by norm_num)]
  · intro h0 h1
    have ht0 : ¬ t < 0 := not_lt.mpr h0
    have hflnn : (0 : ℤ) ≤ ⌊t * 60⌋ := Int.le_floor.mpr (by push_cast; linarith)
    have hfllt : ⌊t * 60⌋ < 1799 := Int.floor_lt.mpr (by push_cast; linarith)
    have hcond : ¬ ((generateReferenceData jsSin).length : ℤ) - 1 ≤ ⌊t * 60⌋ := by
      rw [hlen]; push_cast; omega
    have htn1 : (⌊t * 60⌋).toNat < 1800 := by omega
    have htn2 : (⌊t * 60⌋).toNat + 1 < 1800 := by omega
    simp only [getReferenceAt]
    rw [if_neg ht0, if_neg hcond, generateReferenceData_getD _ _ htn1,
      generateReferenceData_getD _ _ htn2]

/-- Witness for C6: concrete queries at `t = −1` (before the signal), at
`t = 130` (beyond `duration + 100`), and at the in-range `t = 1/120`. -/
theorem getReferenceAt_boundary_interp_witness :
    getReferenceAt (generateReferenceData (fun _ => 0)) (-1) = ⟨0, 0⟩ ∧
    getReferenceAt (generateReferenceData (fun _ => 0)) 130 =
      ⟨(refSampleAt (fun _ => (0 : ℚ)) 1799).throttle,
       (refSampleAt (fun _ => (0 : ℚ)) 1799).brake⟩ ∧
    getReferenceAt (generateReferenceData (fun _ => 0)) (1 / 120) =
      ⟨(refSampleAt (fun _ => (0 : ℚ)) (⌊(1 / 120 : ℚ) * 60⌋).toNat).throttle
          + ((refSampleAt (fun _ => (0 : ℚ)) ((⌊(1 / 120 : ℚ) * 60⌋).toNat + 1)).throttle
              - (refSampleAt (fun _ => (0 : ℚ)) (⌊(1 / 120 : ℚ) * 60⌋).toNat).throttle)
            * ((1 / 120 : ℚ) * 60 - (⌊(1 / 120 : ℚ) * 60⌋ : ℤ)),
       (refSampleAt (fun _ => (0 : ℚ)) (⌊(1 / 120 : ℚ) * 60⌋).toNat).brake
          + ((refSampleAt (fun _ => (0 : ℚ)) ((⌊(1 / 120 : ℚ) * 60⌋).toNat + 1)).brake
              - (refSampleAt (fun _ => (0 : ℚ)) (⌊(1 / 120 : ℚ) * 60⌋).toNat).brake)
            * ((1 / 120 : ℚ) * 60 - (⌊(1 / 120 : ℚ) * 60⌋ : ℤ))⟩ :=
  ⟨(getReferenceAt_boundary_interp (fun _ => 0) (-1)).1 (by norm_num),
   (getReferenceAt_boundary_interp (fun _ => 0) 130).2.1 (by norm_num),
   (getReferenceAt_boundary_interp (fun _ => 0) (1 / 120)).2.2 (by norm_num) (by norm_num)⟩

end LiveTelemetryTrainer
